import Mathlib

/-!
Verification of the action registration / dispatch pipeline and the invocation
envelope protocol of the pip-services3-aws-nodex repository, via a shallow
embedding of the JavaScript sources into Lean.

The embedding follows the compiled sources:
  * src/obj/src/services/LambdaService.js
  * src/obj/src/services/CommandableLambdaService.js
  * src/obj/src/containers/LambdaFunction.js
  * src/obj/src/containers/CommandableLambdaFunction.js (also holds AwsConnectionResolver)
  * the LambdaClient source (client invoke / open / close)

JavaScript objects used as string maps are modelled as association lists,
JavaScript `null`/`undefined` as `Option`, thrown exceptions as `Except`,
and side effects relevant to the claims (which interceptor/handler ran,
instrumentation span begin/end) as an explicit event log returned by each
call.
-/

/-- The error values raised by the embedded code, following the pip-services
exception classes used in the sources.  `withCause` models
`err.withCause(cause)` chaining on an exception. -/
inductive Err where
  /-- BadRequestException correlationId code message, plus `.withDetails` pairs. -/
  | badRequest (correlationId : Option String) (code : String) (message : String)
      (details : List (String × String)) : Err
  /-- UnknownException code message. -/
  | unknown (code : String) (message : String) : Err
  /-- ConfigException (configuration error) code message. -/
  | config (code : String) (message : String) : Err
  /-- InvocationException correlationId code message. -/
  | invocation (correlationId : Option String) (code : String) (message : String) : Err
  /-- An arbitrary error raised by user code (a handler, a command, a parser). -/
  | custom (message : String) : Err
  /-- Embeds `e.withCause(cause)`: the error `e` carrying `cause` as its cause. -/
  | withCause (e : Err) (cause : Err) : Err
  deriving DecidableEq, Repr

/-- A JavaScript object used as a string-to-string map (invocation parameters,
config params, connection params). -/
abbrev Params := List (String × String)

/-- Reading a field of a JS object: `p.k`, `undefined` becomes `none`
(object keys are unique, so the first occurrence is the value). -/
def getField : Params → String → Option String
  | [], _ => none
  | kv :: rest, k => if kv.1 == k then some kv.2 else getField rest k

/-- Writing a field of a JS object: `p.k = v` replaces the value of an
existing key in place, otherwise appends the new key at the end, matching
JS object update and insertion order. -/
def setField : Params → String → String → Params
  | [], k, v => [(k, v)]
  | kv :: rest, k, v => if kv.1 == k then (k, v) :: rest else kv :: setField rest k v

/-- Observable events recorded while an embedded call runs: which interceptor
ran (by an arbitrary numeric mark), which handler ran (by mark), and the
instrumentation span begin/end transitions. -/
inductive Ev where
  | icpt (mark : Nat) : Ev
  | handler (mark : Nat) : Ev
  | openSpan : Ev
  | closeSuccess : Ev
  | closeFailure (e : Err) : Ev
  deriving DecidableEq, Repr

/-- The outcome of one embedded call: the event log plus either a thrown
error or a returned JS value (`none` models returning `undefined`). -/
abbrev Res := List Ev × Except Err (Option String)

/-- An action function `(params) => Promise<any>`; its argument is a JS value
that may be `null` (`none`). -/
abbrev ActFn := Option Params → Res

/-- An interceptor/middleware `(params, next) => Promise<any>`. -/
abbrev Interceptor := Option Params → ActFn → Res

/-- A validation schema: `schema.validateAndReturnException(correlationId,
params, false)` returns an exception or `null`. -/
abbrev Schema := Option String → Params → Option Err

/-- A registered action entry as stored in `this._actions` of a LambdaService
(src/unnamed/part_004, class LambdaAction): command, schema, composed action. -/
structure LambdaActionEntry where
  cmd : String
  schema : Option Schema
  action : ActFn

namespace LambdaService

/-- The mutable state of a `LambdaService` instance
(src/obj/src/services/LambdaService.js): the service name used to namespace
command names, the registered actions, the registered interceptors and the
opened flag. -/
structure State where
  name : Option String
  actions : List LambdaActionEntry
  interceptors : List Interceptor
  opened : Bool

/-- Embeds `LambdaService.applyValidation(schema, action)`: wraps `action` so that,
when a schema is set and the params value is not null, the params are
validated first (`schema.validateAndReturnException(correlationId, params,
false)`) and a validation failure is thrown without calling the action. -/
def applyValidation (schema : Option Schema) (action : ActFn) : ActFn :=
  fun params =>
    match schema, params with
    | some sch, some p =>
      match sch (getField p "correlation_id") p with
      | some err => ([], Except.error err)
      | none => action params
    | _, _ => action params

/-- Embeds `LambdaService.applyInterceptors(action)`: folds the registered
interceptors around `action` from the last-registered one inward, so the
first-registered interceptor becomes the outermost wrapper (the source loop
runs `index` from `interceptors.length - 1` down to `0`). -/
def applyInterceptors (interceptors : List Interceptor) (action : ActFn) : ActFn :=
  interceptors.foldr (fun interceptor acc => fun params => interceptor params acc) action

/-- Embeds `LambdaService.generateActionCmd(name)`: prepends `"<serviceName>."` when
the service has a name. -/
def generateActionCmd (s : State) (name : String) : String :=
  match s.name with
  | some n => n ++ "." ++ name
  | none => name

/-- Embeds `LambdaService.registerAction(name, schema, action)`: wraps the action
with validation, then with the interceptors, and pushes the entry onto
`this._actions`.  The source performs no duplicate-name check here. -/
def registerAction (s : State) (name : String) (schema : Option Schema) (action : ActFn) :
    State :=
  let actionWrapper := applyInterceptors s.interceptors (applyValidation schema action)
  { s with actions := s.actions ++ [⟨generateActionCmd s name, schema, actionWrapper⟩] }

/-- Embeds `LambdaService.registerInterceptor(action)`: pushes onto
`this._interceptors`. -/
def registerInterceptor (s : State) (interceptor : Interceptor) : State :=
  { s with interceptors := s.interceptors ++ [interceptor] }

/-- Embeds `LambdaService.act(params)`: dispatches by the `cmd` field; missing `cmd`
throws BadRequestException NO_COMMAND, an unknown `cmd` throws
BadRequestException NO_ACTION with the command as a detail, otherwise the
first matching registered action is invoked with the params. -/
def act (s : State) (params : Params) : Res :=
  let correlationId := getField params "correlation_id"
  match getField params "cmd" with
  | none => ([], Except.error (Err.badRequest correlationId "NO_COMMAND"
      "Cmd parameter is missing" []))
  | some cmd =>
    match s.actions.find? (fun a => a.cmd == cmd) with
    | none => ([], Except.error (Err.badRequest correlationId "NO_ACTION"
        ("Action " ++ cmd ++ " was not found") [("command", cmd)]))
    | some a => a.action (some params)

/-- Embeds `LambdaService.open(correlationId)`: returns immediately when already
opened, otherwise runs the (subclass-supplied) `register()` and sets the
opened flag. -/
def openSvc (register : State → State) (s : State) : State :=
  if s.opened then s
  else
    let s1 := register s
    { s1 with opened := true }

/-- Embeds `LambdaService.close(correlationId)`: returns immediately when not
opened, otherwise clears the opened flag, the actions and the
interceptors. -/
def closeSvc (s : State) : State :=
  if !s.opened then s
  else { s with opened := false, actions := [], interceptors := [] }

end LambdaService

namespace LambdaService

/-- Shallow embedding of the composed wrapper built by
`LambdaService.registerActionWithAuth(name, schema, authorize, action)`.

The source builds, through one mutable `let actionWrapper` binding:
```
let actionWrapper = this.applyValidation(schema, action);
actionWrapper = (call) => \x7b return authorize(call, actionWrapper); \x7d;
actionWrapper = this.applyInterceptors(actionWrapper);
```
The arrow function reads `actionWrapper` from the binding at call time, and by
then the binding holds the final interceptor-composed wrapper itself, so the
`next` argument handed to `authorize` is the whole composed wrapper
(a self-reference), not the validation wrapper: the validation wrapper built
on the first line (and with it the handler) is never referenced by the final
wrapper.  The self-reference is modelled with fuel; exhausting the fuel
models the JavaScript stack overflow of the resulting infinite recursion. -/
def authComposed (interceptors : List Interceptor) (authorize : Option Params → ActFn → Res) :
    Nat → ActFn
  | 0 => fun _ => ([], Except.error (Err.custom "RangeError: Maximum call stack size exceeded"))
  | fuel + 1 =>
    applyInterceptors interceptors
      (fun call => authorize call (authComposed interceptors authorize fuel))

end LambdaService

/-- Modelled from the spec: the instrumentation span of `InstrumentTiming`
(imported from the pip-services3-rpc package, whose source is not under
src/).  Per spec sections 4.4 and 7 a span is a begin/end pair and "span end
is unconditional"; ending clears the timing so a second end call is a no-op
("scoped acquisition/release discipline", one close per span).  The model
keeps a single liveness flag and reports close events. -/
structure InstrumentTiming where
  live : Bool

/-- Modelled from the spec: `timing.endFailure(err)`: when the timing is still live, closes the span
recording the failure and clears the timing; afterwards a no-op. -/
def InstrumentTiming.endFailure (t : InstrumentTiming) (e : Err) :
    InstrumentTiming × List Ev :=
  if t.live then (⟨false⟩, [Ev.closeFailure e]) else (t, [])

/-- Modelled from the spec: `timing.endTiming()` with no error: when the timing is still live, closes
the span recording success and clears the timing; afterwards a no-op. -/
def InstrumentTiming.endTiming (t : InstrumentTiming) : InstrumentTiming × List Ev :=
  if t.live then (⟨false⟩, [Ev.closeSuccess]) else (t, [])

/-- One command of a command set handed to the commandable adapter:
`\x7bgetName(), execute(correlationId, args)\x7d`.  `execute` either returns a
value or throws. -/
structure CCommand where
  name : String
  execute : Option String → Params → Except Err (Option String)

namespace CommandableLambdaService

/-- The action body registered per command by
`CommandableLambdaService.register`
(src/obj/src/services/CommandableLambdaService.js, lines 71-85):

```
let correlationId = params != null ? params.correlation_id : null;
let args = Parameters.fromValue(params);
args.remove("correlation_id");
let timing = this.instrument(correlationId, name);
try \x7b
    return command.execute(correlationId, args);
\x7d catch (ex) \x7b
    timing.endFailure(ex);
\x7d finally \x7b
    timing.endTiming();
\x7d
```

On a synchronous throw from `execute` the catch block records the failure and
completes normally and the finally block is a no-op on the cleared timing, so
the action returns `undefined`. -/
def commandAction (command : CCommand) : ActFn := fun params =>
  let correlationId := params.bind (fun p => getField p "correlation_id")
  let args := (params.getD []).filter (fun kv => !(kv.1 == "correlation_id"))
  let timing : InstrumentTiming := ⟨true⟩
  match command.execute correlationId args with
  | Except.ok r =>
    let (_, evFin) := timing.endTiming
    (Ev.openSpan :: evFin, Except.ok r)
  | Except.error ex =>
    let (t1, evCatch) := timing.endFailure ex
    let (_, evFin) := t1.endTiming
    (Ev.openSpan :: (evCatch ++ evFin), Except.ok none)

/-- Embeds `CommandableLambdaService.register()`: registers one action per command of
the controller command set, each with a null schema and the
`commandAction` body. -/
def register (commands : List CCommand) (s : LambdaService.State) : LambdaService.State :=
  commands.foldl
    (fun st command => LambdaService.registerAction st command.name none (commandAction command))
    s

end CommandableLambdaService

namespace LambdaFunction

/-- The state of a `LambdaFunction` container
(src/obj/src/containers/LambdaFunction.js): `this._actions` is an object used
as a map from command name to the wrapped action. -/
structure State where
  actions : List (String × ActFn)
  opened : Bool

/-- The wrapped action (`actionCurl`) built by `LambdaFunction.registerAction`:
performs validation when a schema was given (reading `params.correlaton_id`,
with the source's typo in the field name, as the correlation id) and then
calls the action.  When the schema is set and the params value is null the
source would crash reading the field; that is modelled as a thrown
TypeError. -/
def actionCurl (schema : Option Schema) (action : ActFn) : ActFn := fun params =>
  match schema, params with
  | some sch, some p =>
    match sch (getField p "correlaton_id") p with
    | some err => ([], Except.error err)
    | none => action params
  | some _, none => ([], Except.error (Err.custom "TypeError"))
  | none, _ => action params

/-- Embeds `LambdaFunction.registerAction(cmd, schema, action)`: rejects an empty
command, a missing action (`action == null`), and a duplicate command
(`this._actions.hasOwnProperty(cmd)`), each with an UnknownException; on
success stores the wrapped action under `cmd`. -/
def registerAction (s : State) (cmd : String) (schema : Option Schema)
    (action : Option ActFn) : Except Err State :=
  if cmd == "" then
    Except.error (Err.unknown "NO_COMMAND" "Missing command")
  else
    match action with
    | none => Except.error (Err.unknown "NO_ACTION" "Missing action")
    | some act =>
      if (s.actions.find? (fun kv => kv.1 == cmd)).isSome then
        Except.error (Err.unknown "DUPLICATED_ACTION" ("\"" ++ cmd ++ "\" action already exists"))
      else
        Except.ok { s with actions := s.actions ++ [(cmd, actionCurl schema act)] }

/-- Embeds `LambdaFunction.execute(event)`: dispatches by the `cmd` field of the
event; missing `cmd` throws BadRequestException NO_COMMAND, an unknown `cmd`
throws BadRequestException NO_ACTION with the command as a detail, otherwise
the registered action is invoked with the event. -/
def execute (s : State) (event : Params) : Res :=
  let correlationId := getField event "correlation_id"
  match getField event "cmd" with
  | none => ([], Except.error (Err.badRequest correlationId "NO_COMMAND"
      "Cmd parameter is missing" []))
  | some cmd =>
    match s.actions.find? (fun kv => kv.1 == cmd) with
    | none => ([], Except.error (Err.badRequest correlationId "NO_ACTION"
        ("Action " ++ cmd ++ " was not found") [("command", cmd)]))
    | some kv => kv.2 (some event)

end LambdaFunction

/-- The payload field of the AWS SDK invocation response `data.Payload`: a
string, or some other JS value (`val none` models null/undefined). -/
inductive LPayload where
  | str (s : String) : LPayload
  | val (v : Option String) : LPayload
  deriving DecidableEq, Repr

/-- The parameter object handed to `this._lambda.invokeAsync(params)`:
`\x7bFunctionName, InvocationType, LogType, Payload\x7d`. -/
structure InvokeParams where
  functionName : String
  invocationType : String
  logType : String
  payload : String
  deriving DecidableEq, Repr

namespace LambdaClient

/-- A minimal JSON-like serialization of the envelope object,
standing for `JSON.stringify(args)`. -/
def stringifyParams (p : Params) : String :=
  "\x7b" ++ String.intercalate ","
    (p.map (fun kv => "\"" ++ kv.1 ++ "\":\"" ++ kv.2 ++ "\"")) ++ "\x7d"

/-- JavaScript `correlationId || IdGenerator.nextShort()`: the supplied id
unless it is absent or empty (falsy), in which case the freshly generated
short id `gen` is used. -/
def jsOrGen (correlationId : Option String) (gen : String) : String :=
  match correlationId with
  | some s => if s == "" then gen else s
  | none => gen

/-- The envelope object built by `LambdaClient.invoke` before serialization:
`args = Object.assign(\x7b\x7d, args); args.cmd = cmd;
args.correlation_id = correlationId || IdGenerator.nextShort();`.
Both assignments mutate the fresh copy made by `Object.assign`, never the
caller-owned object. -/
def envelopeOf (cmd : String) (correlationId : Option String) (gen : String)
    (args : Params) : Params :=
  let copy := args
  setField (setField copy "cmd" cmd) "correlation_id" (jsOrGen correlationId gen)

/-- The body of the outer `try` of `LambdaClient.invoke` after the transport
call returned `data`: a textual payload is decoded with `JSON.parse`; a
decode failure throws an InvocationException DESERIALIZATION_FAILED carrying
the parse error as cause.  Because this throw happens inside the outer
`try`, it is observed by the outer `catch`. -/
def decodePayload (parse : String → Except Err (Option String))
    (correlationId : Option String) (data : LPayload) : Except Err (Option String) :=
  match data with
  | LPayload.str s =>
    match parse s with
    | Except.error err =>
      Except.error (Err.withCause
        (Err.invocation correlationId "DESERIALIZATION_FAILED" "Failed to deserialize result") err)
    | Except.ok v => Except.ok v
  | LPayload.val v => Except.ok v

/-- Embeds `LambdaClient.invoke(invocationType, cmd, correlationId, args)`
(src/unnamed/part_002, lines 188-219).  `transport` stands for
`this._lambda.invokeAsync` returning `data.Payload` or a transport error, and
`parse` for `JSON.parse`.  Any error thrown inside the outer `try` — a
transport error or the DESERIALIZATION_FAILED exception thrown by the inner
catch — is wrapped by the outer catch into an InvocationException CALL_FAILED
with that error as cause. -/
def invoke (transport : InvokeParams → Except Err LPayload)
    (parse : String → Except Err (Option String))
    (arn : String) (gen : String)
    (invocationType : String) (cmd : Option String) (correlationId : Option String)
    (args : Params) : Except Err (Option String) :=
  match cmd with
  | none => Except.error (Err.unknown "NO_COMMAND" "Missing Seneca pattern cmd")
  | some c =>
    let envelope := envelopeOf c correlationId gen args
    let params : InvokeParams := ⟨arn, invocationType, "None", stringifyParams envelope⟩
    match (do
        let data ← transport params
        decodePayload parse correlationId data : Except Err (Option String)) with
    | Except.error err =>
      Except.error (Err.withCause
        (Err.invocation correlationId "CALL_FAILED" "Failed to invoke lambda function") err)
    | Except.ok v => Except.ok v

/-- The state of a `LambdaClient` relevant to open/close: the opened flag and
the cached connection resolved on open. -/
structure State where
  opened : Bool
  connection : Option Params

/-- Embeds `LambdaClient.open(correlationId)`: returns immediately when already
opened, otherwise resolves and caches the connection and sets the opened
flag (`resolved` stands for the value produced by the connection
resolver). -/
def openClient (resolved : Params) (s : State) : State :=
  if s.opened then s
  else { opened := true, connection := some resolved }

/-- Embeds `LambdaClient.close(correlationId)`: returns immediately when not opened,
otherwise clears the opened flag. -/
def closeClient (s : State) : State :=
  if !s.opened then s
  else { s with opened := false }

end LambdaClient

namespace AwsConnection

/-- Embeds `ConfigParams.append` / `AwsConnectionParams.append(params)`: merges the
entries of `extra` into `base`, overriding existing keys. -/
def appendParams (base extra : Params) : Params :=
  extra.foldl (fun b kv => setField b kv.1 kv.2) base

/-- Modelled from the spec: `AwsConnectionParams.getPartition` (the
AwsConnectionParams class is not under src/).  The partition component with
its `"aws"` default. -/
def getPartition (c : Params) : String :=
  match getField c "partition" with
  | some s => if s == "" then "aws" else s
  | none => "aws"

/-- A component field read as a plain string, absent becoming empty. -/
def getComponent (c : Params) (k : String) : String :=
  (getField c k).getD ""

/-- Modelled from the spec: `AwsConnectionParams.getArn` (not under src/).
Per spec section 3, the ARN, when present, is authoritative; when absent it
is synthesized from the component fields. -/
def getArn (c : Params) : String :=
  match getField c "arn" with
  | some arn => arn
  | none =>
    "arn:" ++ getPartition c ++ ":" ++ getComponent c "service" ++ ":" ++
      getComponent c "region" ++ ":" ++ getComponent c "resource_type" ++ ":" ++
      getComponent c "resource"

/-- The ARN synthesized when every component field is missing; an effective
address equal to it carries no routing information. -/
def emptyArn : String := "arn:aws::::"

/-- Modelled from the spec: `AwsConnectionParams.setArn` (not under src/).
Stores the ARN and parses it back into its component fields for
observability. -/
def setArn (c : Params) (value : String) : Params :=
  let tokens := value.splitOn ":"
  let c1 := setField c "arn" value
  let c2 := setField c1 "partition" (tokens.getD 1 "")
  let c3 := setField c2 "service" (tokens.getD 2 "")
  let c4 := setField c3 "region" (tokens.getD 3 "")
  let c5 := setField c4 "resource_type" (tokens.getD 4 "")
  setField c5 "resource" (tokens.getD 5 "")

/-- Whether a credential field is still missing after merging: absent or
empty. -/
def missingField (c : Params) (k : String) : Bool :=
  match getField c k with
  | none => true
  | some s => s == ""

/-- Modelled from the spec: `AwsConnectionParams.validate(correlationId)`
(not under src/).  Per spec sections 3 and 4.6, resolution fails with a
configuration error if, after merging, any of the address, the access id or
the access key is still missing; an effective address synthesized from
all-empty components counts as missing. -/
def validate (c : Params) : Except Err Unit :=
  let arn := getArn c
  if arn == "" || arn == emptyArn then
    Except.error (Err.config "NO_AWS_CONNECTION" "AWS connection is not set")
  else if missingField c "access_id" then
    Except.error (Err.config "NO_ACCESS_ID" "No access_id is configured in AWS credential")
  else if missingField c "access_key" then
    Except.error (Err.config "NO_ACCESS_KEY" "No access_key is configured in AWS credential")
  else
    Except.ok ()

/-- Embeds `AwsConnectionResolver.resolve(correlationId)` (the second document of
src/obj/src/containers/CommandableLambdaFunction.js, lines 192-205): appends
the resolved connection parameters and the separately resolved credential
parameters into one AwsConnectionParams value, forces ARN parsing
(`connection.setArn(connection.getArn())`), validates, and returns the
merged connection.  `connectionParams` and `credentialParams` stand for the
results of the external ConnectionResolver and CredentialResolver. -/
def resolve (connectionParams credentialParams : Params) : Except Err Params :=
  let connection : Params := []
  let connection := appendParams connection connectionParams
  let connection := appendParams connection credentialParams
  let connection := setArn connection (getArn connection)
  match validate connection with
  | Except.error e => Except.error e
  | Except.ok _ => Except.ok connection

end AwsConnection

/-! Instrumented interceptors and handlers used to state the chain-ordering
claims: each records an observable mark in the event log when it runs. -/

/-- A transforming interceptor with mark `k`: transforms the params with `g`
and passes them on to `next`, recording that it ran. -/
def tfIcpt (k : Nat) (g : Option Params → Option Params) : Interceptor :=
  fun params next =>
    let r := next (g params)
    (Ev.icpt k :: r.1, r.2)

/-- A short-circuiting interceptor with mark `k`: records that it ran and
returns the outcome `r` without calling `next` (`r` may be a returned value
or a thrown error). -/
def scIcpt (k : Nat) (r : Except Err (Option String)) : Interceptor :=
  fun _ _ => ([Ev.icpt k], r)

/-- A handler with mark `m`: records that it ran and produces `f params`. -/
def markedHandler (m : Nat) (f : Option Params → Except Err (Option String)) : ActFn :=
  fun params => ([Ev.handler m], f params)

/-- The marks of a list of transforming interceptors. -/
def tfMarks (ps : List (Nat × (Option Params → Option Params))) : List Ev :=
  ps.map (fun kg => Ev.icpt kg.1)

/-- The chain of transforming interceptors described by `ps`. -/
def tfChain (ps : List (Nat × (Option Params → Option Params))) : List Interceptor :=
  ps.map (fun kg => tfIcpt kg.1 kg.2)

/-- The params transformations of `ps` applied in registration order. -/
def tfApply (ps : List (Nat × (Option Params → Option Params))) (p : Option Params) :
    Option Params :=
  ps.foldl (fun q kg => kg.2 q) p

/-- The pass-through authorization interceptor: authorizes every call and
forwards it unchanged by calling its `next` argument exactly once. -/
def passNext : Option Params → ActFn → Res := fun call next => next call

/-- The error thrown by the failing command used to exercise the commandable
adapter failure path. -/
def boomErr : Err := Err.custom "boom"

/-- A command whose `execute` throws `boomErr`. -/
def boomCmd : CCommand := ⟨"greet", fun _ _ => Except.error boomErr⟩

/-- A command whose `execute` returns a value. -/
def helloCmd : CCommand := ⟨"hello", fun _ _ => Except.ok (some "hi")⟩

/-- A commandable service named `"v1"` opened over the two commands above:
`open` runs the commandable `register`, deriving one action per command. -/
def cSvc : LambdaService.State :=
  LambdaService.openSvc (CommandableLambdaService.register [boomCmd, helloCmd])
    ⟨some "v1", [], [], false⟩

/-- First handler registered under the duplicated name. -/
def dupH1 : ActFn := markedHandler 1 (fun _ => Except.ok (some "one"))

/-- Second handler registered under the duplicated name. -/
def dupH2 : ActFn := markedHandler 2 (fun _ => Except.ok (some "two"))

/-- A LambdaService on which the same action name `"a"` is registered
twice. -/
def dupSvc : LambdaService.State :=
  LambdaService.registerAction
    (LambdaService.registerAction ⟨none, [], [], false⟩ "a" none dupH1) "a" none dupH2

/-- A transport whose invocation response payload is a (non-JSON) string. -/
def strTransport : InvokeParams → Except Err LPayload :=
  fun _ => Except.ok (LPayload.str "not json")

/-- A decode function failing on every input, standing for `JSON.parse` on a
malformed payload. -/
def failParse : String → Except Err (Option String) :=
  fun _ => Except.error (Err.custom "SyntaxError: Unexpected token")

/-- A transport whose invocation response payload is a non-string value, so
no decoding is attempted. -/
def okTransport : InvokeParams → Except Err LPayload :=
  fun _ => Except.ok (LPayload.val (some "res"))

/-- The registered entry of the dispatch witness service. -/
def wEntry : LambdaActionEntry := ⟨"v1.op", none, markedHandler 7 (fun _ => Except.ok (some "r"))⟩

/-- A dispatch witness service holding one registered action. -/
def wSvc : LambdaService.State := ⟨some "v1", [wEntry], [], true⟩

/-- The registered action of the dispatch witness container. -/
def wFnAct : ActFn := markedHandler 8 (fun _ => Except.ok (some "q"))

/-- A dispatch witness container holding one registered action. -/
def wFn : LambdaFunction.State := ⟨[("op", wFnAct)], true⟩

/-- The validation error produced by the always-failing witness schema. -/
def wValErr : Err := Err.custom "ValidationException: x is missing"

/-- A schema that rejects every params object. -/
def failSchema : Schema := fun _ _ => some wValErr

/-- A schema that accepts every params object. -/
def passSchema : Schema := fun _ _ => none

/-- Witness connection parameters resolved from configuration. -/
def wConnParams : Params := [("region", "us-east-1"), ("service", "lambda"), ("resource", "myFn")]

/-- Witness credential parameters. -/
def wCredParams : Params := [("access_id", "AKIA123"), ("access_key", "secretKey")]

/-- Witness credential parameters missing the access key. -/
def wBadCredParams : Params := [("access_id", "AKIA123")]
/-! Helper lemmas about the association-list object operations and about
`List.find?`, shared by the theorems below. -/

theorem getField_setField_self (p : Params) (k v : String) :
    getField (setField p k v) k = some v := by
  induction p with
  | nil => simp [getField, setField]
  | cons kv rest ih =>
    by_cases h : kv.1 = k
    · simp [getField, setField, h]
    · simp [getField, setField, h, ih]

theorem getField_setField_ne (p : Params) (k j v : String) (h : j ≠ k) :
    getField (setField p j v) k = getField p k := by
  induction p with
  | nil => simp [getField, setField, h]
  | cons kv rest ih =>
    by_cases hk : kv.1 = j
    · simp [getField, setField, hk, h, Ne.symm h]
    · by_cases hk2 : kv.1 = k
      · simp [getField, setField, hk, hk2, Ne.symm h]
      · simp [getField, setField, hk, hk2, ih]

theorem find_of_filter_singleton {α : Type} (pred : α → Bool) (l : List α) (a : α)
    (h : l.filter pred = [a]) : l.find? pred = some a := by
  induction l with
  | nil => simp at h
  | cons x xs ih =>
    by_cases hx : pred x = true
    · simp [List.filter_cons, hx] at h
      obtain ⟨rfl, -⟩ := h
      simp [List.find?_cons, hx]
    · simp [List.filter_cons, hx] at h
      simp [List.find?_cons, hx, ih h]

theorem find_append_of_some {α : Type} (pred : α → Bool) (l l2 : List α) (a : α)
    (h : l.find? pred = some a) : (l ++ l2).find? pred = some a := by
  induction l with
  | nil => simp at h
  | cons x xs ih =>
    by_cases hx : pred x = true
    · simp only [List.find?_cons, hx, List.cons_append] at h ⊢
      exact h
    · simp only [List.find?_cons, hx, List.cons_append] at h ⊢
      exact ih h

theorem find_eq_none_of_all {α : Type} (pred : α → Bool) (l : List α)
    (h : ∀ a ∈ l, pred a = false) : l.find? pred = none := by
  induction l with
  | nil => simp
  | cons x xs ih =>
    have hx := h x (List.mem_cons_self x xs)
    simp only [List.find?_cons, hx]
    exact ih (fun a ha => h a (List.mem_cons_of_mem x ha))

/-- Evaluating an interceptor chain of transformers: the marks are recorded
in registration order and the base action receives the params transformed in
registration order. -/
theorem applyInterceptors_tfChain (ps : List (Nat × (Option Params → Option Params)))
    (a : ActFn) (p : Option Params) :
    LambdaService.applyInterceptors (tfChain ps) a p
      = (tfMarks ps ++ (a (tfApply ps p)).1, (a (tfApply ps p)).2) := by
  induction ps generalizing p with
  | nil => simp [tfChain, tfMarks, tfApply, LambdaService.applyInterceptors]
  | cons kg rest ih =>
    simp only [tfChain, tfMarks, tfApply, List.map_cons, List.foldl_cons,
      LambdaService.applyInterceptors, List.foldr_cons] at ih ⊢
    simp [tfIcpt, ih]

/-- C10: open and close are idempotent at the public interface: opening an
already-open LambdaService returns without invoking `register` (the state is
unchanged for every possible `register`), closing an already-closed
LambdaService leaves the state unchanged, and the same no-op-when-already-in-
state behavior holds for LambdaClient.open and LambdaClient.close. -/
theorem c10_open_close_idempotent :
    (∀ (register : LambdaService.State → LambdaService.State) (s : LambdaService.State),
      s.opened = true → LambdaService.openSvc register s = s)
    ∧ (∀ s : LambdaService.State, s.opened = false → LambdaService.closeSvc s = s)
    ∧ (∀ (resolved : Params) (s : LambdaClient.State),
      s.opened = true → LambdaClient.openClient resolved s = s)
    ∧ (∀ s : LambdaClient.State, s.opened = false → LambdaClient.closeClient s = s) := by
  refine ⟨?_, ?_, ?_, ?_⟩
  · intro register s h
    simp [LambdaService.openSvc, h]
  · intro s h
    simp [LambdaService.closeSvc, h]
  · intro resolved s h
    simp [LambdaClient.openClient, h]
  · intro s h
    simp [LambdaClient.closeClient, h]

/-- Witness for C10 at concrete states: an opened service and client are
unchanged by open, a closed service and client are unchanged by close. -/
theorem c10_open_close_idempotent_witness :
    LambdaService.openSvc (CommandableLambdaService.register [boomCmd]) wSvc = wSvc
    ∧ LambdaService.closeSvc ⟨some "v1", [], [], false⟩ = ⟨some "v1", [], [], false⟩
    ∧ LambdaClient.openClient wConnParams ⟨true, some wConnParams⟩ = ⟨true, some wConnParams⟩
    ∧ LambdaClient.closeClient ⟨false, none⟩ = ⟨false, none⟩ := by
  refine ⟨?_, ?_, ?_, ?_⟩
  · exact c10_open_close_idempotent.1 (CommandableLambdaService.register [boomCmd]) wSvc rfl
  · exact c10_open_close_idempotent.2.1 ⟨some "v1", [], [], false⟩ rfl
  · exact c10_open_close_idempotent.2.2.1 wConnParams ⟨true, some wConnParams⟩ rfl
  · exact c10_open_close_idempotent.2.2.2 ⟨false, none⟩ rfl

/-- C3: dispatch (LambdaService.act and LambdaFunction.execute) fails with
the missing-command error when the envelope's cmd is absent, reaching no
handler (the event log is empty); fails with the action-not-found error
whose "command" detail equals the supplied cmd when no registered action's
command name equals cmd; and otherwise invokes exactly the one matching
action with the envelope's parameters and returns its result or propagates
its failure unchanged. -/
theorem c3_dispatch_routing :
    (∀ (s : LambdaService.State) (p : Params),
      getField p "cmd" = none →
      LambdaService.act s p =
        ([], Except.error (Err.badRequest (getField p "correlation_id") "NO_COMMAND"
          "Cmd parameter is missing" [])))
    ∧ (∀ (s : LambdaService.State) (p : Params) (c : String),
      getField p "cmd" = some c →
      (∀ a ∈ s.actions, a.cmd ≠ c) →
      LambdaService.act s p =
        ([], Except.error (Err.badRequest (getField p "correlation_id") "NO_ACTION"
          ("Action " ++ c ++ " was not found") [("command", c)])))
    ∧ (∀ (s : LambdaService.State) (p : Params) (c : String) (a : LambdaActionEntry),
      getField p "cmd" = some c →
      s.actions.filter (fun x => x.cmd == c) = [a] →
      LambdaService.act s p = a.action (some p))
    ∧ (∀ (s : LambdaFunction.State) (p : Params),
      getField p "cmd" = none →
      LambdaFunction.execute s p =
        ([], Except.error (Err.badRequest (getField p "correlation_id") "NO_COMMAND"
          "Cmd parameter is missing" [])))
    ∧ (∀ (s : LambdaFunction.State) (p : Params) (c : String),
      getField p "cmd" = some c →
      (∀ kv ∈ s.actions, kv.1 ≠ c) →
      LambdaFunction.execute s p =
        ([], Except.error (Err.badRequest (getField p "correlation_id") "NO_ACTION"
          ("Action " ++ c ++ " was not found") [("command", c)])))
    ∧ (∀ (s : LambdaFunction.State) (p : Params) (c : String) (kv : String × ActFn),
      getField p "cmd" = some c →
      s.actions.filter (fun x => x.1 == c) = [kv] →
      LambdaFunction.execute s p = kv.2 (some p)) := by
  refine ⟨?_, ?_, ?_, ?_, ?_, ?_⟩
  · intro s p h
    simp [LambdaService.act, h]
  · intro s p c h hall
    have hf : s.actions.find? (fun a => a.cmd == c) = none :=
      find_eq_none_of_all _ _ (fun a ha => by simp [hall a ha])
    simp [LambdaService.act, h, hf]
  · intro s p c a h hfil
    have hf : s.actions.find? (fun x => x.cmd == c) = some a :=
      find_of_filter_singleton _ _ _ hfil
    simp [LambdaService.act, h, hf]
  · intro s p h
    simp [LambdaFunction.execute, h]
  · intro s p c h hall
    have hf : s.actions.find? (fun kv => kv.1 == c) = none :=
      find_eq_none_of_all _ _ (fun kv hkv => by simp [hall kv hkv])
    simp [LambdaFunction.execute, h, hf]
  · intro s p c kv h hfil
    have hf : s.actions.find? (fun x => x.1 == c) = some kv :=
      find_of_filter_singleton _ _ _ hfil
    simp [LambdaFunction.execute, h, hf]

/-- Witness for C3 at a concrete service and container: an envelope without
cmd, an envelope with an unregistered cmd, and an envelope matching the one
registered action. -/
theorem c3_dispatch_routing_witness :
    LambdaService.act wSvc [("correlation_id", "123")] =
      ([], Except.error (Err.badRequest (some "123") "NO_COMMAND" "Cmd parameter is missing" []))
    ∧ LambdaService.act wSvc [("cmd", "nope")] =
      ([], Except.error (Err.badRequest none "NO_ACTION" "Action nope was not found"
        [("command", "nope")]))
    ∧ LambdaService.act wSvc [("cmd", "v1.op")] = ([Ev.handler 7], Except.ok (some "r"))
    ∧ LambdaFunction.execute wFn [("correlation_id", "123")] =
      ([], Except.error (Err.badRequest (some "123") "NO_COMMAND" "Cmd parameter is missing" []))
    ∧ LambdaFunction.execute wFn [("cmd", "nope")] =
      ([], Except.error (Err.badRequest none "NO_ACTION" "Action nope was not found"
        [("command", "nope")]))
    ∧ LambdaFunction.execute wFn [("cmd", "op")] = ([Ev.handler 8], Except.ok (some "q")) := by
  refine ⟨?_, ?_, ?_, ?_, ?_, ?_⟩
  · exact c3_dispatch_routing.1 wSvc [("correlation_id", "123")] rfl
  · exact c3_dispatch_routing.2.1 wSvc [("cmd", "nope")] "nope" rfl
      (by intro a ha; simp [wSvc, wEntry] at ha; simp [ha])
  · exact c3_dispatch_routing.2.2.1 wSvc [("cmd", "v1.op")] "v1.op" wEntry rfl rfl
  · exact c3_dispatch_routing.2.2.2.1 wFn [("correlation_id", "123")] rfl
  · exact c3_dispatch_routing.2.2.2.2.1 wFn [("cmd", "nope")] "nope" rfl
      (by intro kv hkv; simp [wFn] at hkv; simp [hkv])
  · exact c3_dispatch_routing.2.2.2.2.2 wFn [("cmd", "op")] "op" ("op", wFnAct) rfl rfl

/-- C4 counterexample: on a LambdaService, registering a second action under
the already-registered name "a" does not fail with DuplicatedActionError —
`LambdaService.registerAction` performs no duplicate check and appends the
second entry, so the service ends up holding two actions named "a" (while
dispatch still picks the first). -/
theorem c4_duplicate_counterexample :
    dupSvc.actions.map (fun a => a.cmd) = ["a", "a"]
    ∧ LambdaService.act dupSvc [("cmd", "a")] = ([Ev.handler 1], Except.ok (some "one")) := by
  exact ⟨rfl, rfl⟩

/-- C4 amended: LambdaFunction.registerAction fails with DUPLICATED_ACTION on
a duplicate command name, leaving the registry unchanged so that dispatch
still invokes the first-registered handler; LambdaService.registerAction
performs no duplicate check — it appends the second entry — but dispatch
still invokes the first-registered handler because lookup returns the first
match. -/
theorem c4_duplicate_registration :
    (∀ (s : LambdaFunction.State) (cmd : String) (schema : Option Schema) (a : ActFn)
        (kv : String × ActFn),
      cmd ≠ "" →
      s.actions.find? (fun x => x.1 == cmd) = some kv →
      LambdaFunction.registerAction s cmd schema (some a) =
        Except.error (Err.unknown "DUPLICATED_ACTION" ("\"" ++ cmd ++ "\" action already exists")))
    ∧ (∀ (s : LambdaFunction.State) (p : Params) (cmd : String) (kv : String × ActFn),
      getField p "cmd" = some cmd →
      s.actions.find? (fun x => x.1 == cmd) = some kv →
      LambdaFunction.execute s p = kv.2 (some p))
    ∧ (∀ (s : LambdaService.State) (name : String) (schema : Option Schema) (h2 : ActFn)
        (p : Params) (e : LambdaActionEntry),
      getField p "cmd" = some (LambdaService.generateActionCmd s name) →
      s.actions.find? (fun x => x.cmd == LambdaService.generateActionCmd s name) = some e →
      LambdaService.act (LambdaService.registerAction s name schema h2) p =
        e.action (some p)) := by
  refine ⟨?_, ?_, ?_⟩
  · intro s cmd schema a kv hcmd hfind
    simp [LambdaFunction.registerAction, hcmd, hfind]
  · intro s p cmd kv hp hfind
    simp [LambdaFunction.execute, hp, hfind]
  · intro s name schema h2 p e hp hfind
    have happ : (LambdaService.registerAction s name schema h2).actions
        = s.actions ++ [⟨LambdaService.generateActionCmd s name, schema,
            LambdaService.applyInterceptors s.interceptors
              (LambdaService.applyValidation schema h2)⟩] := rfl
    have hf := find_append_of_some
      (fun x => x.cmd == LambdaService.generateActionCmd s name) s.actions
      [⟨LambdaService.generateActionCmd s name, schema,
        LambdaService.applyInterceptors s.interceptors
          (LambdaService.applyValidation schema h2)⟩] e hfind
    simp [LambdaService.act, hp, happ, hf]

/-- Witness for C4 amended: a duplicate registration on the container fails
with DUPLICATED_ACTION, while dispatch on the container and on a service
with a duplicate-named second action still invokes the first handler. -/
theorem c4_duplicate_registration_witness :
    LambdaFunction.registerAction wFn "op" none (some dupH2) =
      Except.error (Err.unknown "DUPLICATED_ACTION" "\"op\" action already exists")
    ∧ LambdaFunction.execute wFn [("cmd", "op")] = ([Ev.handler 8], Except.ok (some "q"))
    ∧ LambdaService.act (LambdaService.registerAction wSvc "op" none dupH2) [("cmd", "v1.op")] =
      ([Ev.handler 7], Except.ok (some "r")) := by
  refine ⟨?_, ?_, ?_⟩
  · exact c4_duplicate_registration.1 wFn "op" none dupH2 ("op", wFnAct)
      (by decide) rfl
  · exact c4_duplicate_registration.2.1 wFn [("cmd", "op")] "op" ("op", wFnAct) rfl rfl
  · exact c4_duplicate_registration.2.2 wSvc "op" none dupH2 [("cmd", "v1.op")] wEntry rfl rfl

/-- C5: for an action registered with a non-null schema, when the dispatched
envelope carries a correlation id the envelope's parameters are validated
against the schema before the handler runs: a validation failure makes the
call fail with the validation error while the handler is never invoked (the
event log is empty), and a validation success hands the envelope to the
handler. -/
theorem c5_schema_validation :
    ∀ (nm : Option String) (sch : Schema) (hm : Nat)
      (hf : Option Params → Except Err (Option String)) (name : String) (p : Params)
      (cid : String),
      getField p "correlation_id" = some cid →
      getField p "cmd" = some (LambdaService.generateActionCmd ⟨nm, [], [], false⟩ name) →
      (∀ e : Err, sch cid p = some e →
        LambdaService.act
          (LambdaService.registerAction ⟨nm, [], [], false⟩ name (some sch)
            (markedHandler hm hf)) p
          = ([], Except.error e))
      ∧ (sch cid p = none →
        LambdaService.act
          (LambdaService.registerAction ⟨nm, [], [], false⟩ name (some sch)
            (markedHandler hm hf)) p
          = ([Ev.handler hm], hf (some p))) := by
  intro nm sch hm hf name p cid hcid hcmd
  have hact : LambdaService.act
      (LambdaService.registerAction ⟨nm, [], [], false⟩ name (some sch) (markedHandler hm hf)) p
      = LambdaService.applyValidation (some sch) (markedHandler hm hf) (some p) := by
    simp [LambdaService.act, LambdaService.registerAction, hcmd, LambdaService.applyInterceptors]
  constructor
  · intro e he
    rw [hact]
    simp [LambdaService.applyValidation, hcid, he]
  · intro he
    rw [hact]
    simp [LambdaService.applyValidation, hcid, he, markedHandler]

/-- Witness for C5 at a concrete envelope: the failing schema stops dispatch
with the validation error before the handler, the accepting schema lets the
handler run. -/
theorem c5_schema_validation_witness :
    LambdaService.act
      (LambdaService.registerAction ⟨some "v1", [], [], false⟩ "op" (some failSchema)
        (markedHandler 9 (fun _ => Except.ok (some "done"))))
      [("cmd", "v1.op"), ("correlation_id", "123")]
      = ([], Except.error wValErr)
    ∧ LambdaService.act
      (LambdaService.registerAction ⟨some "v1", [], [], false⟩ "op" (some passSchema)
        (markedHandler 9 (fun _ => Except.ok (some "done"))))
      [("cmd", "v1.op"), ("correlation_id", "123")]
      = ([Ev.handler 9], Except.ok (some "done")) := by
  constructor
  · exact (c5_schema_validation (some "v1") failSchema 9 (fun _ => Except.ok (some "done"))
      "op" [("cmd", "v1.op"), ("correlation_id", "123")] "123" rfl rfl).1 wValErr rfl
  · exact (c5_schema_validation (some "v1") passSchema 9 (fun _ => Except.ok (some "done"))
      "op" [("cmd", "v1.op"), ("correlation_id", "123")] "123" rfl rfl).2 rfl

/-- Splitting an interceptor chain: composing an appended chain equals
composing the prefix around the composition of the suffix. -/
theorem applyInterceptors_append (l1 l2 : List Interceptor) (a : ActFn) :
    LambdaService.applyInterceptors (l1 ++ l2) a
      = LambdaService.applyInterceptors l1 (LambdaService.applyInterceptors l2 a) := by
  simp [LambdaService.applyInterceptors, List.foldr_append]

/-- C2: interceptors registered in order i1..iN compose with i1 outermost
and iN innermost: registration appends in order, composing a chain peels the
first-registered interceptor off as the outermost wrapper, a chain of
transforming interceptors runs in registration order and hands the handler
the params transformed in registration order, and an interceptor at position
k that returns or throws without calling next prevents the interceptors
after it, the validation wrapper and the handler from ever running. -/
theorem c2_interceptor_chain_order :
    (∀ (s : LambdaService.State) (icpts : List Interceptor),
      (icpts.foldl LambdaService.registerInterceptor s).interceptors
        = s.interceptors ++ icpts)
    ∧ (∀ (i : Interceptor) (rest : List Interceptor) (a : ActFn) (p : Option Params),
      LambdaService.applyInterceptors (i :: rest) a p
        = i p (LambdaService.applyInterceptors rest a))
    ∧ (∀ (ps : List (Nat × (Option Params → Option Params))) (a : ActFn) (p : Option Params),
      LambdaService.applyInterceptors (tfChain ps) a p
        = (tfMarks ps ++ (a (tfApply ps p)).1, (a (tfApply ps p)).2))
    ∧ (∀ (ps : List (Nat × (Option Params → Option Params))) (k : Nat)
        (r : Except Err (Option String)) (rest : List Interceptor) (schema : Option Schema)
        (hm : Nat) (hf : Option Params → Except Err (Option String)) (p : Option Params),
      LambdaService.applyInterceptors (tfChain ps ++ scIcpt k r :: rest)
          (LambdaService.applyValidation schema (markedHandler hm hf)) p
        = (tfMarks ps ++ [Ev.icpt k], r)
      ∧ Ev.handler hm ∉ tfMarks ps ++ [Ev.icpt k]) := by
  refine ⟨?_, ?_, ?_, ?_⟩
  · intro s icpts
    induction icpts generalizing s with
    | nil => simp
    | cons i rest ih =>
      simp [List.foldl_cons, ih, LambdaService.registerInterceptor]
  · intro i rest a p
    rfl
  · intro ps a p
    exact applyInterceptors_tfChain ps a p
  · intro ps k r rest schema hm hf p
    constructor
    · rw [applyInterceptors_append]
      rw [applyInterceptors_tfChain]
      simp [LambdaService.applyInterceptors, scIcpt]
    · simp [tfMarks]

/-- C8: the wrapper built by registerActionWithAuth is self-referential: with
no interceptors registered and the pass-through authorization interceptor
(which calls next exactly once), every amount of fuel is exhausted — the
call never reaches the validation wrapper or the handler (no handler event
is ever recorded) and, in JavaScript, recurses until the stack
overflows. -/
theorem c8_auth_next_self_reference :
    ∀ (fuel : Nat) (p : Option Params),
      LambdaService.authComposed [] passNext fuel p
        = ([], Except.error (Err.custom "RangeError: Maximum call stack size exceeded"))
      ∧ ∀ hm : Nat, Ev.handler hm ∉ (LambdaService.authComposed [] passNext fuel p).1 := by
  intro fuel
  induction fuel with
  | zero =>
    intro p
    exact ⟨rfl, by intro hm; simp [LambdaService.authComposed]⟩
  | succ n ih =>
    intro p
    have hstep : LambdaService.authComposed [] passNext (n + 1) p
        = LambdaService.authComposed [] passNext n p := by
      simp [LambdaService.authComposed, LambdaService.applyInterceptors, passNext]
    refine ⟨?_, ?_⟩
    · rw [hstep]
      exact (ih p).1
    · intro hm
      rw [hstep]
      exact (ih p).2 hm

/-- C1: dispatching the commandable-adapter action of a command whose
execute throws ends exactly one instrumentation span recording the failure,
but the action then resolves with `undefined` instead of re-raising the
original error (the catch block of CommandableLambdaService.register does
not rethrow); the success path ends exactly one span cleanly and returns the
result. -/
theorem c1_commandable_span_failure :
    LambdaService.act cSvc [("cmd", "v1.greet"), ("correlation_id", "123")]
      = ([Ev.openSpan, Ev.closeFailure boomErr], Except.ok none)
    ∧ LambdaService.act cSvc [("cmd", "v1.hello"), ("correlation_id", "123")]
      = ([Ev.openSpan, Ev.closeSuccess], Except.ok (some "hi")) := by
  exact ⟨rfl, rfl⟩

/-- C6 counterexample: when the returned payload is a string that fails
decoding, the caller does not observe the deserialization error itself — the
DESERIALIZATION_FAILED exception is thrown inside the outer try of
LambdaClient.invoke and the outer catch wraps it once more into the
CALL_FAILED invocation error. -/
theorem c6_decode_error_counterexample :
    LambdaClient.invoke strTransport failParse "arn:aws:lambda:us-east-1" "gen1"
      "RequestResponse" (some "get_dummies") (some "123") []
      = Except.error (Err.withCause
          (Err.invocation (some "123") "CALL_FAILED" "Failed to invoke lambda function")
          (Err.withCause
            (Err.invocation (some "123") "DESERIALIZATION_FAILED" "Failed to deserialize result")
            (Err.custom "SyntaxError: Unexpected token")))
    ∧ Err.withCause
        (Err.invocation (some "123") "CALL_FAILED" "Failed to invoke lambda function")
        (Err.withCause
          (Err.invocation (some "123") "DESERIALIZATION_FAILED" "Failed to deserialize result")
          (Err.custom "SyntaxError: Unexpected token"))
      ≠ Err.withCause
          (Err.invocation (some "123") "DESERIALIZATION_FAILED" "Failed to deserialize result")
          (Err.custom "SyntaxError: Unexpected token") := by
  exact ⟨rfl, by decide⟩

/-- C6 amended: when the returned payload is a string that fails structured
decoding, the call fails with the CALL_FAILED invocation error whose cause
is the deserialization error, which itself carries the original decode error
as its cause — the deserialization error is re-wrapped exactly once by the
transport-failure wrapper and nothing is swallowed. -/
theorem c6_decode_error_wrapped_twice :
    ∀ (transport : InvokeParams → Except Err LPayload)
      (parse : String → Except Err (Option String)) (arn gen ity c : String)
      (corr : Option String) (args : Params) (s : String) (e : Err),
      transport ⟨arn, ity, "None",
        LambdaClient.stringifyParams (LambdaClient.envelopeOf c corr gen args)⟩
        = Except.ok (LPayload.str s) →
      parse s = Except.error e →
      LambdaClient.invoke transport parse arn gen ity (some c) corr args
        = Except.error (Err.withCause
            (Err.invocation corr "CALL_FAILED" "Failed to invoke lambda function")
            (Err.withCause
              (Err.invocation corr "DESERIALIZATION_FAILED" "Failed to deserialize result")
              e)) := by
  intro transport parse arn gen ity c corr args s e ht hp
  simp [LambdaClient.invoke, ht, LambdaClient.decodePayload, hp, bind, Except.bind]

/-- Witness for C6 amended at a concrete transport and parser. -/
theorem c6_decode_error_wrapped_twice_witness :
    LambdaClient.invoke strTransport failParse "arn1" "g1" "RequestResponse"
      (some "c1") (some "77") [("x", "1")]
      = Except.error (Err.withCause
          (Err.invocation (some "77") "CALL_FAILED" "Failed to invoke lambda function")
          (Err.withCause
            (Err.invocation (some "77") "DESERIALIZATION_FAILED" "Failed to deserialize result")
            (Err.custom "SyntaxError: Unexpected token"))) := by
  exact c6_decode_error_wrapped_twice strTransport failParse "arn1" "g1" "RequestResponse"
    "c1" (some "77") [("x", "1")] "not json" (Err.custom "SyntaxError: Unexpected token") rfl rfl

/-- C7: the client envelope construction fails with the missing-command error
when cmd is absent; otherwise the serialized payload is built from a copy of
the caller's args carrying the cmd, a correlation_id equal to the supplied
one when it is non-empty and to the freshly generated short id when none was
supplied, and every other field unchanged from the caller's args. -/
theorem c7_envelope_construction :
    (∀ (transport : InvokeParams → Except Err LPayload)
       (parse : String → Except Err (Option String)) (arn gen ity : String)
       (corr : Option String) (args : Params),
      LambdaClient.invoke transport parse arn gen ity none corr args
        = Except.error (Err.unknown "NO_COMMAND" "Missing Seneca pattern cmd"))
    ∧ (∀ (c : String) (corr : Option String) (gen : String) (args : Params),
      getField (LambdaClient.envelopeOf c corr gen args) "cmd" = some c)
    ∧ (∀ (c : String) (corr : Option String) (gen : String) (args : Params),
      getField (LambdaClient.envelopeOf c corr gen args) "correlation_id"
        = some (LambdaClient.jsOrGen corr gen))
    ∧ (∀ (c : String) (corr : Option String) (gen : String) (args : Params) (k : String),
      k ≠ "cmd" → k ≠ "correlation_id" →
      getField (LambdaClient.envelopeOf c corr gen args) k = getField args k)
    ∧ (∀ (s gen : String), s ≠ "" → LambdaClient.jsOrGen (some s) gen = s)
    ∧ (∀ gen : String, LambdaClient.jsOrGen none gen = gen)
    ∧ (∀ (transport : InvokeParams → Except Err LPayload)
       (parse : String → Except Err (Option String)) (arn gen ity c : String)
       (corr : Option String) (args : Params),
      LambdaClient.invoke transport parse arn gen ity (some c) corr args
        = match (do
            let data ← transport ⟨arn, ity, "None",
              LambdaClient.stringifyParams (LambdaClient.envelopeOf c corr gen args)⟩
            LambdaClient.decodePayload parse corr data : Except Err (Option String)) with
          | Except.error err =>
            Except.error (Err.withCause
              (Err.invocation corr "CALL_FAILED" "Failed to invoke lambda function") err)
          | Except.ok v => Except.ok v) := by
  refine ⟨?_, ?_, ?_, ?_, ?_, ?_, ?_⟩
  · intro transport parse arn gen ity corr args
    rfl
  · intro c corr gen args
    unfold LambdaClient.envelopeOf
    rw [getField_setField_ne _ _ _ _ (by decide), getField_setField_self]
  · intro c corr gen args
    unfold LambdaClient.envelopeOf
    rw [getField_setField_self]
  · intro c corr gen args k hk1 hk2
    unfold LambdaClient.envelopeOf
    rw [getField_setField_ne _ _ _ _ (Ne.symm hk2), getField_setField_ne _ _ _ _ (Ne.symm hk1)]
  · intro s gen h
    simp [LambdaClient.jsOrGen, h]
  · intro gen
    rfl
  · intro transport parse arn gen ity c corr args
    rfl

/-- Witness for C7 at concrete inputs: a call without cmd fails with the
missing-command error, and a concrete envelope carries the cmd, the supplied
non-empty correlation id, and the caller's other fields unchanged; with no
supplied id the generated one is used. -/
theorem c7_envelope_construction_witness :
    LambdaClient.invoke strTransport failParse "arn1" "g1" "Event" none (some "9") [("x", "1")]
      = Except.error (Err.unknown "NO_COMMAND" "Missing Seneca pattern cmd")
    ∧ getField (LambdaClient.envelopeOf "c1" (some "id7") "g1" [("x", "1")]) "cmd" = some "c1"
    ∧ getField (LambdaClient.envelopeOf "c1" (some "id7") "g1" [("x", "1")]) "correlation_id"
      = some "id7"
    ∧ getField (LambdaClient.envelopeOf "c1" none "g1" [("x", "1")]) "correlation_id" = some "g1"
    ∧ getField (LambdaClient.envelopeOf "c1" (some "id7") "g1" [("x", "1")]) "x" = some "1"
    ∧ LambdaClient.jsOrGen (some "id7") "g1" = "id7" := by
  refine ⟨?_, ?_, ?_, ?_, ?_, ?_⟩
  · exact c7_envelope_construction.1 strTransport failParse "arn1" "g1" "Event" (some "9")
      [("x", "1")]
  · exact c7_envelope_construction.2.1 "c1" (some "id7") "g1" [("x", "1")]
  · exact c7_envelope_construction.2.2.1 "c1" (some "id7") "g1" [("x", "1")]
  · exact c7_envelope_construction.2.2.1 "c1" none "g1" [("x", "1")]
  · exact c7_envelope_construction.2.2.2.1 "c1" (some "id7") "g1" [("x", "1")] "x"
      (by decide) (by decide)
  · exact c7_envelope_construction.2.2.2.2.1 "id7" "g1" (by decide)

/-- A field that is not missing is present and non-empty. -/
theorem not_missing_field (m : Params) (k : String)
    (h : AwsConnection.missingField m k = false) :
    ∃ s, getField m k = some s ∧ s ≠ "" := by
  unfold AwsConnection.missingField at h
  cases hg : getField m k with
  | none => rw [hg] at h; simp at h
  | some s =>
    rw [hg] at h
    refine ⟨s, rfl, ?_⟩
    simpa using h

/-- A connection accepted by validation has a non-empty effective address
and present, non-empty credentials. -/
theorem validate_ok_fields (m : Params) (h : AwsConnection.validate m = Except.ok ()) :
    AwsConnection.getArn m ≠ ""
    ∧ (∃ id, getField m "access_id" = some id ∧ id ≠ "")
    ∧ (∃ key, getField m "access_key" = some key ∧ key ≠ "") := by
  unfold AwsConnection.validate at h
  by_cases h1 : (AwsConnection.getArn m == "" || AwsConnection.getArn m == AwsConnection.emptyArn)
      = true
  · rw [if_pos h1] at h
    simp at h
  · rw [if_neg h1] at h
    by_cases h2 : AwsConnection.missingField m "access_id" = true
    · rw [if_pos h2] at h
      simp at h
    · rw [if_neg h2] at h
      by_cases h3 : AwsConnection.missingField m "access_key" = true
      · rw [if_pos h3] at h
        simp at h
      · have h2f : AwsConnection.missingField m "access_id" = false := by
          revert h2; cases AwsConnection.missingField m "access_id" <;> simp
        have h3f : AwsConnection.missingField m "access_key" = false := by
          revert h3; cases AwsConnection.missingField m "access_key" <;> simp
        have harn : AwsConnection.getArn m ≠ "" := by
          intro he
          exact h1 (by simp [he])
        exact ⟨harn, not_missing_field m "access_id" h2f, not_missing_field m "access_key" h3f⟩

/-- A merged connection with a missing address or credential field is
rejected by validation with a configuration error. -/
theorem validate_error_cases (m : Params)
    (h : AwsConnection.getArn m = "" ∨ AwsConnection.getArn m = AwsConnection.emptyArn
      ∨ AwsConnection.missingField m "access_id" = true
      ∨ AwsConnection.missingField m "access_key" = true) :
    ∃ code msg, AwsConnection.validate m = Except.error (Err.config code msg) := by
  unfold AwsConnection.validate
  by_cases h1 : (AwsConnection.getArn m == "" || AwsConnection.getArn m == AwsConnection.emptyArn)
      = true
  · rw [if_pos h1]
    exact ⟨"NO_AWS_CONNECTION", "AWS connection is not set", rfl⟩
  · rw [if_neg h1]
    by_cases h2 : AwsConnection.missingField m "access_id" = true
    · rw [if_pos h2]
      exact ⟨"NO_ACCESS_ID", "No access_id is configured in AWS credential", rfl⟩
    · rw [if_neg h2]
      by_cases h3 : AwsConnection.missingField m "access_key" = true
      · rw [if_pos h3]
        exact ⟨"NO_ACCESS_KEY", "No access_key is configured in AWS credential", rfl⟩
      · exfalso
        rcases h with ha | ha | ha | ha
        · exact h1 (by simp [ha])
        · exact h1 (by simp [ha])
        · exact h2 ha
        · exact h3 ha

/-- A successful resolution returns exactly the merged connection, which
passed validation. -/
theorem resolve_ok_validate (cp cr c : Params)
    (h : AwsConnection.resolve cp cr = Except.ok c) :
    AwsConnection.validate c = Except.ok () := by
  have hres : AwsConnection.resolve cp cr
      = (match AwsConnection.validate
          (AwsConnection.setArn
            (AwsConnection.appendParams (AwsConnection.appendParams [] cp) cr)
            (AwsConnection.getArn
              (AwsConnection.appendParams (AwsConnection.appendParams [] cp) cr))) with
        | Except.error e => Except.error e
        | Except.ok _ => Except.ok
            (AwsConnection.setArn
              (AwsConnection.appendParams (AwsConnection.appendParams [] cp) cr)
              (AwsConnection.getArn
                (AwsConnection.appendParams (AwsConnection.appendParams [] cp) cr)))) := rfl
  rw [hres] at h
  cases hv : AwsConnection.validate
      (AwsConnection.setArn
        (AwsConnection.appendParams (AwsConnection.appendParams [] cp) cr)
        (AwsConnection.getArn
          (AwsConnection.appendParams (AwsConnection.appendParams [] cp) cr))) with
  | error e =>
    rw [hv] at h
    simp at h
  | ok u =>
    rw [hv] at h
    cases u
    simp only [] at h
    injection h with h2
    rw [← h2]
    exact hv

/-- C9: AwsConnectionResolver.resolve merges the resolved connection
parameters with the separately resolved credential parameters and fails with
a ConfigurationError if, after merging, any of the effective address (ARN),
the access id or the access key is still missing; every successfully
returned connection has a non-empty arn, access id and access key. -/
theorem c9_connection_resolution :
    ∀ (cp cr : Params),
      (∀ c : Params, AwsConnection.resolve cp cr = Except.ok c →
        AwsConnection.getArn c ≠ ""
        ∧ (∃ id, getField c "access_id" = some id ∧ id ≠ "")
        ∧ (∃ key, getField c "access_key" = some key ∧ key ≠ ""))
      ∧ (∀ m : Params,
        m = AwsConnection.setArn
          (AwsConnection.appendParams (AwsConnection.appendParams [] cp) cr)
          (AwsConnection.getArn
            (AwsConnection.appendParams (AwsConnection.appendParams [] cp) cr)) →
        (AwsConnection.getArn m = "" ∨ AwsConnection.getArn m = AwsConnection.emptyArn
          ∨ AwsConnection.missingField m "access_id" = true
          ∨ AwsConnection.missingField m "access_key" = true) →
        ∃ code msg, AwsConnection.resolve cp cr = Except.error (Err.config code msg)) := by
  intro cp cr
  constructor
  · intro c hc
    exact validate_ok_fields c (resolve_ok_validate cp cr c hc)
  · intro m hm hmiss
    obtain ⟨code, msg, hv⟩ := validate_error_cases m hmiss
    refine ⟨code, msg, ?_⟩
    have hres : AwsConnection.resolve cp cr
        = (match AwsConnection.validate m with
          | Except.error e => Except.error e
          | Except.ok _ => Except.ok m) := by
      rw [hm]
      rfl
    rw [hres, hv]

/-- Witness for C9 at concrete parameters: full connection and credential
configuration resolves to a connection with non-empty arn and credentials;
dropping the access key makes resolution fail with a configuration error. -/
theorem c9_connection_resolution_witness :
    (AwsConnection.getArn (AwsConnection.setArn
        (AwsConnection.appendParams (AwsConnection.appendParams [] wConnParams) wCredParams)
        (AwsConnection.getArn
          (AwsConnection.appendParams (AwsConnection.appendParams [] wConnParams) wCredParams)))
      ≠ ""
      ∧ (∃ id, getField (AwsConnection.setArn
          (AwsConnection.appendParams (AwsConnection.appendParams [] wConnParams) wCredParams)
          (AwsConnection.getArn
            (AwsConnection.appendParams (AwsConnection.appendParams [] wConnParams) wCredParams)))
          "access_id" = some id ∧ id ≠ "")
      ∧ (∃ key, getField (AwsConnection.setArn
          (AwsConnection.appendParams (AwsConnection.appendParams [] wConnParams) wCredParams)
          (AwsConnection.getArn
            (AwsConnection.appendParams (AwsConnection.appendParams [] wConnParams) wCredParams)))
          "access_key" = some key ∧ key ≠ ""))
    ∧ (∃ code msg,
      AwsConnection.resolve wConnParams wBadCredParams = Except.error (Err.config code msg)) := by
  constructor
  · exact (c9_connection_resolution wConnParams wCredParams).1 _ rfl
  · exact (c9_connection_resolution wConnParams wBadCredParams).2 _ rfl
      (by right; right; right; rfl)

/-- C7 counterexample: an empty-string cmd does not make the client call fail
with the missing-command error — the source only checks `cmd == null`, so
`""` is accepted and placed in the envelope, and the call completes. -/
theorem c7_empty_cmd_counterexample :
    LambdaClient.invoke okTransport failParse "arn1" "g1" "RequestResponse"
      (some "") (some "55") [("x", "1")] = Except.ok (some "res")
    ∧ LambdaClient.invoke okTransport failParse "arn1" "g1" "RequestResponse"
      (some "") (some "55") [("x", "1")]
      ≠ Except.error (Err.unknown "NO_COMMAND" "Missing Seneca pattern cmd") := by
  refine ⟨rfl, fun h => ?_⟩
  have h2 : (Except.ok (some "res") : Except Err (Option String))
      = Except.error (Err.unknown "NO_COMMAND" "Missing Seneca pattern cmd") :=
    Eq.trans (by rfl) h
  exact Except.noConfusion h2
